import Mathlib

/-!
Verification of the ronomon/direct-io native binding (src/binding.c, with
src/binding.cc as the older variant) against its natural-language
specification. The N-API variant binding.c is the authoritative source for
this development; every definition below is a shallow embedding of a
function from that file, translated clause by clause. Platform-specific
system calls (ioctl, posix_memalign, fstat, SG_IO) are modelled as oracle
parameters describing the outcome the operating system returns.
-/

namespace DirectIO

/-! ## Argument marshaling: arg_int (binding.c lines 38-58)

A JavaScript number reaches the binding as a double. The code reads it with
napi_get_value_double and rejects negatives, NaN, Infinity, values above
INT_MAX and non-integers. We model a caller-supplied value as either a
finite rational (the exact value of the double), NaN, one of the two
infinities, or a non-number value on which napi_get_value_double fails. -/

inductive JSNum where
  | num (q : ℚ)
  | nan
  | posinf
  | neginf
  | notNumber
deriving DecidableEq

/-- INT_MAX on every platform the binding supports (asserted in Init,
binding.c line 649). -/
def INT_MAX : ℕ := 2147483647

/-- Embedding of arg_int: returns the validated non-negative integer, or
none where the C function returns 0 and the caller throws. The four
rejection tests mirror lines 44-51: conversion failure, negative, NaN,
above INT_MAX, and fractional (the double-int-double round trip changes a
non-integer). -/
def arg_int : JSNum → Option ℕ
  | JSNum.num q =>
    if q < 0 then none
    else if (INT_MAX : ℚ) < q then none
    else if q.den ≠ 1 then none
    else some q.num.toNat
  | _ => none

/-! ## Aligned allocator: get_aligned_buffer (binding.c lines 550-597) -/

/-- Outcome of the platform aligned-allocation primitive, posix_memalign on
POSIX platforms (binding.c lines 584-588). The oracle receives alignment
and size. -/
inductive MemResult where
  | ok (ptr : ℕ)
  | einval
  | enomem
  | fail
deriving DecidableEq

/-- Observable result of the synchronous getAlignedBuffer entry point:
a thrown error, an abort through a failed assert (binding.c lines 590-592),
or a returned buffer with its start address and byte contents. -/
inductive AllocResult where
  | thrown (msg : String)
  | aborted (msg : String)
  | buffer (addr : ℕ) (contents : List ℕ)
deriving DecidableEq

/-- sizeof(void *) on the 64-bit platforms the module targets
(binding.c line 577). -/
def POINTER_SIZE : ℕ := 8

/-- Embedding of get_aligned_buffer. The two arguments are marshaled
through arg_int; the precondition chain then follows lines 567-579 in
source order, the platform allocator is consulted only after every check
passed, the returned pointer is asserted non-null and aligned, and the
buffer is zero-filled by memset (line 593). The argc == 2 check is
implicit in the arity of this function. -/
def get_aligned_buffer (size_arg alignment_arg : JSNum)
    (memalign : ℕ → ℕ → MemResult) : AllocResult :=
  match arg_int size_arg, arg_int alignment_arg with
  | some size, some alignment =>
    if size = 0 then AllocResult.thrown "size must not be 0"
    else if 2147483647 < size then
      AllocResult.thrown "size must be at most 2147483647 bytes"
    else if alignment = 0 then AllocResult.thrown "alignment must not be 0"
    else if alignment &&& (alignment - 1) ≠ 0 then
      AllocResult.thrown "alignment must be a power of 2"
    else if alignment < 8 then
      AllocResult.thrown "alignment must be at least 8 bytes"
    else if 4194304 < alignment then
      AllocResult.thrown "alignment must be at most 4194304 bytes"
    else if alignment < POINTER_SIZE then
      AllocResult.thrown "alignment must be at least as large as a pointer"
    else
      match memalign alignment size with
      | MemResult.einval => AllocResult.thrown "bad alignment argument"
      | MemResult.enomem => AllocResult.thrown "insufficient memory"
      | MemResult.fail => AllocResult.thrown "unexpected error, posix_memalign"
      | MemResult.ok ptr =>
        if ptr = 0 then AllocResult.aborted "assert failed: ptr != NULL"
        else if ptr &&& (alignment - 1) ≠ 0 then
          AllocResult.aborted "assert failed: pointer is aligned"
        else AllocResult.buffer ptr (List.replicate size 0)
  | _, _ => AllocResult.thrown "bad arguments, expected: (size, alignment)"

/-! ## Spec-side ordered precondition list (spec section 4.1)

The following definitions follow the words of the specification, not the
code; they exist to be compared with get_aligned_buffer. -/

/-- The property named by the words of the spec: the alignment is a power
of two. -/
def specPow2 (a : ℕ) : Prop := ∃ k, a = 2 ^ k

/-- Bitwise masking with a power of two minus one is reduction modulo that
power of two. -/
theorem land_two_pow_sub_one (x k : ℕ) : x &&& (2 ^ k - 1) = x % 2 ^ k := by
  apply Nat.eq_of_testBit_eq
  intro i
  rw [Nat.testBit_land, Nat.testBit_two_pow_sub_one, Nat.testBit_mod_two_pow]
  rw [Bool.and_comm]

/-- The power-of-two test the code performs with a bitwise mask agrees with
the property named by the spec. -/
theorem pow2_iff_land (a : ℕ) :
    specPow2 a ↔ a ≠ 0 ∧ a &&& (a - 1) = 0 := by
  constructor
  · rintro ⟨k, rfl⟩
    refine ⟨(Nat.pos_of_ne_zero ?_).ne.symm, ?_⟩
    · exact (Nat.pos_of_neZero (2 ^ k)).ne.symm
    · rw [land_two_pow_sub_one, Nat.mod_self]
  · rintro ⟨hne, hland⟩
    refine ⟨a.log2, ?_⟩
    by_contra hne2
    have h1 : 2 ^ a.log2 ≤ a := Nat.log2_self_le hne
    have h2 : a < 2 ^ (a.log2 + 1) := Nat.lt_log2_self
    have h1b : 2 ^ a.log2 ≤ a - 1 := by
      rcases Nat.lt_or_ge (a - 1) (2 ^ a.log2) with hlt | hge
      · exfalso
        exact hne2 (le_antisymm (by omega) h1)
      · exact hge
    have hp : 0 < 2 ^ a.log2 := Nat.pos_pow_of_pos _ (by norm_num)
    have hd1 : a / 2 ^ a.log2 = 1 := by
      have hlo : 1 ≤ a / 2 ^ a.log2 := (Nat.one_le_div_iff hp).mpr h1
      have hhi : a / 2 ^ a.log2 < 2 := by
        rw [Nat.div_lt_iff_lt_mul hp]
        calc a < 2 ^ (a.log2 + 1) := h2
        _ = 2 * 2 ^ a.log2 := by ring
      omega
    have hd2 : (a - 1) / 2 ^ a.log2 = 1 := by
      have hlo : 1 ≤ (a - 1) / 2 ^ a.log2 := (Nat.one_le_div_iff hp).mpr h1b
      have hhi : (a - 1) / 2 ^ a.log2 < 2 := by
        rw [Nat.div_lt_iff_lt_mul hp]
        calc a - 1 ≤ a := Nat.sub_le a 1
        _ < 2 ^ (a.log2 + 1) := h2
        _ = 2 * 2 ^ a.log2 := by ring
      omega
    have hbit : (a &&& (a - 1)).testBit a.log2 = true := by
      rw [Nat.testBit_land, Nat.testBit_to_div_mod, Nat.testBit_to_div_mod]
      rw [hd1, hd2]
      simp
    rw [hland] at hbit
    rw [Nat.zero_testBit] at hbit
    exact Bool.false_ne_true hbit

instance specPow2.instDecidable : DecidablePred specPow2 := fun a =>
  decidable_of_iff (a ≠ 0 ∧ a &&& (a - 1) = 0) (pow2_iff_land a).symm

/-- Modelled from the spec, section 4.1: the ordered precondition list,
first failure wins. This definition follows the words of the specification
and is compared with the embedding of get_aligned_buffer. -/
def spec_first_failure (size alignment : ℕ) : Option String :=
  if size = 0 then some "size must not be 0"
  else if 2147483647 < size then some "size must be at most 2147483647 bytes"
  else if alignment = 0 then some "alignment must not be 0"
  else if ¬ specPow2 alignment then some "alignment must be a power of 2"
  else if alignment < 8 then some "alignment must be at least 8 bytes"
  else if 4194304 < alignment then
    some "alignment must be at most 4194304 bytes"
  else if alignment < POINTER_SIZE then
    some "alignment must be at least as large as a pointer"
  else none

/-! ## Signed 64-bit arithmetic model

The task stores sector sizes and the device size in int64_t fields. We
model an int64_t value as an integer in [-2 ^ 63, 2 ^ 63), with casts and
multiplication wrapping modulo 2 ^ 64 (the behaviour of every supported
target for the conversions and products the code performs). -/

/-- Wrap an unbounded integer into the int64_t range. -/
def int64_wrap (z : ℤ) : ℤ :=
  if z % 2 ^ 64 < 2 ^ 63 then z % 2 ^ 64 else z % 2 ^ 64 - 2 ^ 64

/-- The C cast (int64_t) applied to an unsigned value. -/
def toInt64 (n : ℕ) : ℤ := int64_wrap (n : ℤ)

/-- Embedding of the macOS device-size computation, binding.c line 332:
device_size = (int64_t) logical_sector * (int64_t) logical_sectors, where
logical_sector is a uint32_t and logical_sectors a uint64_t. -/
def device_size_macos (logical_sector logical_sectors : ℕ) : ℤ :=
  int64_wrap (toInt64 logical_sector * toInt64 logical_sectors)

/-! ## SCSI INQUIRY serial extraction (binding.c lines 225-303, Linux) -/

/-- DEVICE_SERIAL_MAX, binding.c line 27: capacity of the output buffer. -/
def DEVICE_SERIAL_MAX : ℕ := 1024

/-- sizeof(dxferp), binding.c line 250: the fixed SCSI INQUIRY response
buffer is 255 bytes. -/
def RESPONSE_LENGTH : ℕ := 255

/-- Number of serial bytes the copy loop at lines 292-301 transfers:
length starts at DEVICE_SERIAL_MAX and is lowered to the declared length
byte dxferp[3] when that is smaller. -/
def serial_copy_length (declared : ℕ) : ℕ :=
  if declared < DEVICE_SERIAL_MAX then declared else DEVICE_SERIAL_MAX

/-- The indices of the response buffer the copy loop reads: offset 4 plus
the running count, for every count below the copy length. -/
def serial_read_indices (declared : ℕ) : List ℕ :=
  (List.range (serial_copy_length declared)).map (fun i => 4 + i)

/-- The bytes the copy loop places in the output buffer. An index beyond
the response list models a read past the end of the 255-byte dxferp array;
such a read is undefined behaviour in the C program and is represented
here by the byte 0. -/
def serial_copy (dxferp : List ℕ) : List ℕ :=
  (serial_read_indices (dxferp.getD 3 0)).map (fun i => dxferp.getD i 0)

/-! ## The task execution shell (binding.c lines 83-223 and 443-466) -/

/-- The mutable task record, struct task_data (binding.c lines 83-95).
The napi bookkeeping references are omitted; the serial buffer is the list
of bytes written so far. -/
structure TaskData where
  fd : ℕ
  value : ℕ
  device : ℕ
  device_sector_logical : ℤ
  device_sector_physical : ℤ
  device_size : ℤ
  device_serial : List ℕ
  error : Option String
deriving DecidableEq

/-- Task state immediately after task_queue (binding.c lines 173-182):
all numeric fields zero, serial empty, no error. -/
def task_queue_init (fd value device : ℕ) : TaskData :=
  { fd := fd, value := value, device := device,
    device_sector_logical := 0, device_sector_physical := 0,
    device_size := 0, device_serial := [], error := none }

/-- Outcome of one SG_IO ioctl as the sg driver reports it: the io_hdr
status fields and the response buffer contents. -/
structure SgIoResult where
  info : ℕ
  masked_status : ℕ
  host_status : ℕ
  driver_status : ℕ
  dxferp : List ℕ
deriving DecidableEq

/-- SG_INFO_OK_MASK from scsi/sg.h. -/
def SG_INFO_OK_MASK : ℕ := 1

/-- SG_INFO_OK from scsi/sg.h. -/
def SG_INFO_OK : ℕ := 0

/-- The replies the Linux kernel gives to the system calls the combined
geometry and identity query performs on one file descriptor. A none entry
means the call returned failure. -/
structure LinuxEnv where
  fstat_mode : Option ℕ
  blkssz : Option ℤ
  blkpbsz : Option ℕ
  blkgetsize64 : Option ℕ
  sg_version : Option ℤ
  sg_io : Option SgIoResult
deriving DecidableEq

/-- S_IFMT file-type mask. -/
def S_IFMT : ℕ := 61440

/-- S_IFBLK block-device file type. -/
def S_IFBLK : ℕ := 24576

/-- S_IFCHR character-device file type. -/
def S_IFCHR : ℕ := 8192

/-- Embedding of task_execute_get_block_device_size, Linux branch
(binding.c lines 411-439): BLKSSZGET into an int checked non-negative,
BLKPBSZGET into an unsigned int, BLKGETSIZE64 into a uint64_t, then the
three fields stored through int64_t casts. -/
def task_execute_get_block_device_size (env : LinuxEnv) (task : TaskData) :
    TaskData :=
  match env.blkssz with
  | none => { task with error := some "BLKSSZGET failed" }
  | some logical_sector =>
    if logical_sector < 0 then
      { task with error := some "logical_sector < 0" }
    else
      match env.blkpbsz with
      | none => { task with error := some "BLKPBSZGET failed" }
      | some physical_sector =>
        match env.blkgetsize64 with
        | none => { task with error := some "BLKGETSIZE64 failed" }
        | some size =>
          { task with
            device_sector_logical := logical_sector,
            device_sector_physical := (physical_sector : ℤ),
            device_size := toInt64 size }

/-- Embedding of task_execute_get_block_device_serial, Linux branch
(binding.c lines 238-301): SG_GET_VERSION_NUM, the version floor, SG_IO,
the four status checks, the page-code echo check at offset 1, then the
copy of the declared number of serial bytes starting at offset 4. -/
def task_execute_get_block_device_serial (env : LinuxEnv) (task : TaskData) :
    TaskData :=
  match env.sg_version with
  | none => { task with error := some "SG_GET_VERSION_NUM failed" }
  | some version =>
    if version < 30000 then
      { task with error := some "SG_GET_VERSION_NUM < 30000" }
    else
      match env.sg_io with
      | none => { task with error := some "SG_IO failed" }
      | some r =>
        if r.info &&& SG_INFO_OK_MASK ≠ SG_INFO_OK then
          { task with error := some "SG_INFO_OK_MASK failed" }
        else if r.masked_status ≠ 0 then
          { task with error := some "io_hdr.masked_status was non-zero" }
        else if r.host_status ≠ 0 then
          { task with error := some "io_hdr.host_status was non-zero" }
        else if r.driver_status ≠ 0 then
          { task with error := some "io_hdr.driver_status was non_zero" }
        else if r.dxferp.getD 1 0 ≠ 128 then
          { task with error := some "dxferp[1] != 0x80" }
        else
          { task with device_serial := serial_copy r.dxferp }

/-- Embedding of task_execute_get_block_device (binding.c lines 443-466):
fstat with the block-or-character-device check, then the size query, then
the serial query, each gated on no error so far. -/
def task_execute_get_block_device (env : LinuxEnv) (task : TaskData) :
    TaskData :=
  match env.fstat_mode with
  | none => { task with error := some "fstat failed" }
  | some mode =>
    if mode &&& S_IFMT ≠ S_IFBLK ∧ mode &&& S_IFMT ≠ S_IFCHR then
      { task with error := some "fd is not a block or character device" }
    else
      let t1 :=
        match task.error with
        | some _ => task
        | none => task_execute_get_block_device_size env task
      match t1.error with
      | some _ => t1
      | none => task_execute_get_block_device_serial env t1

/-- The status value the runtime hands to the completion callback. -/
inductive NapiStatus where
  | ok
  | cancelled
deriving DecidableEq

/-- The immutable value object delivered on success of the combined
geometry and identity query (spec section 3). -/
structure DeviceInfo where
  logicalSectorSize : ℤ
  physicalSectorSize : ℤ
  size : ℤ
  serialNumber : List ℕ
deriving DecidableEq

/-- What one invocation of the completion callback carries: an error, a
bare success for the toggles, or a device info object. -/
inductive Completion where
  | failure (msg : String)
  | success_unit
  | success_device (info : DeviceInfo)
deriving DecidableEq

/-- The serial trimming loops of task_complete (binding.c lines 139-145):
advance past leading bytes equal to 32, then shorten past trailing bytes
equal to 32. -/
def trim_serial (serial : List ℕ) : List ℕ :=
  (((serial.dropWhile (fun b => b == 32)).reverse.dropWhile
      (fun b => b == 32))).reverse

/-- Embedding of task_complete (binding.c lines 108-163): a cancelled
status overwrites the error slot with the cancellation message; an error
produces an error argument; otherwise a toggle task yields a bare success
and a device task yields the info object with the trimmed serial. -/
def task_complete (status : NapiStatus) (task : TaskData) : Completion :=
  let t1 :=
    if status = NapiStatus.cancelled then
      { task with error := some "async work was cancelled" }
    else task
  match t1.error with
  | some e => Completion.failure e
  | none =>
    if t1.device = 0 then Completion.success_unit
    else
      Completion.success_device
        { logicalSectorSize := t1.device_sector_logical,
          physicalSectorSize := t1.device_sector_physical,
          size := t1.device_size,
          serialNumber := trim_serial t1.device_serial }

/-- The list of callback invocations one run of the completion handler
performs: napi_call_function is reached exactly once on every path through
task_complete (binding.c line 156). -/
def task_complete_calls (status : NapiStatus) (task : TaskData) :
    List Completion :=
  [task_complete status task]

/-- The completion the caller observes for one getBlockDevice request on
Linux: the task is queued with device = 1 (binding.c line 614), executed
against the kernel replies, and completed with status ok. -/
def get_block_device_outcome (env : LinuxEnv) (fd : ℕ) : Completion :=
  task_complete NapiStatus.ok
    (task_execute_get_block_device env (task_queue_init fd 0 1))

/-! ## Platform-gated entry points (binding.c lines 199-223 and 617-639) -/

/-- The four operating-system families the source distinguishes with
preprocessor conditionals. -/
inductive Platform where
  | linux
  | macos
  | freebsd
  | windows
deriving DecidableEq

/-- The arguments one toggle invocation receives from the host language:
the count of arguments, the two numeric arguments, and whether the third
argument is a function. -/
structure ToggleCall where
  argc : ℕ
  fd_arg : JSNum
  value_arg : JSNum
  callback_is_function : Bool
deriving DecidableEq

/-- Result of a synchronous entry point: a thrown error, or a task queued
for native execution on a worker thread. Only a queued task ever reaches
a native system call. -/
inductive EntryResult where
  | thrown (msg : String)
  | queued (task : TaskData)
deriving DecidableEq

/-- Embedding of task_args (binding.c lines 199-223): three arguments, the
first two marshaled through arg_int, the third a function, the value at
most 1; any failure throws the shared bad-arguments message before any
task is created. -/
def task_args (c : ToggleCall) : EntryResult :=
  match arg_int c.fd_arg, arg_int c.value_arg with
  | some fd, some value =>
    if c.argc ≠ 3 ∨ c.callback_is_function = false ∨ 1 < value then
      EntryResult.thrown "bad arguments, expected: (fd, value=0/1, callback)"
    else EntryResult.queued (task_queue_init fd value 0)
  | _, _ =>
    EntryResult.thrown "bad arguments, expected: (fd, value=0/1, callback)"

/-- Embedding of set_f_nocache (binding.c lines 617-623): compiled to the
task path only on macOS, to an unconditional throw elsewhere. -/
def set_f_nocache (p : Platform) (c : ToggleCall) : EntryResult :=
  match p with
  | Platform.macos => task_args c
  | _ => EntryResult.thrown "only supported on mac os"

/-- Embedding of set_flock (binding.c lines 625-631): an unconditional
throw on Windows, the task path everywhere else. -/
def set_flock (p : Platform) (c : ToggleCall) : EntryResult :=
  match p with
  | Platform.windows => EntryResult.thrown "not supported on windows"
  | _ => task_args c

/-- Embedding of set_fsctl_lock_volume (binding.c lines 633-639): the task
path only on Windows, an unconditional throw elsewhere. -/
def set_fsctl_lock_volume (p : Platform) (c : ToggleCall) : EntryResult :=
  match p with
  | Platform.windows => task_args c
  | _ => EntryResult.thrown "only supported on windows"

/-! ## Spec-side view of the combined query (spec sections 4.3, 4.4, 7)

The next three definitions restate, directly over the kernel replies and
independently of the task state machine, which call fails first, what a
fully successful query must deliver, and when every call succeeded. They
follow the specification text and are compared with the embedding. -/

/-- The response buffer the SG_IO call filled, empty when the call was
never answered. -/
def sg_dxferp (env : LinuxEnv) : List ℕ :=
  match env.sg_io with
  | some r => r.dxferp
  | none => []

/-- Modelled from the spec: the first failing step of the geometry part of
the query, named after the failing call. -/
def size_first_error (env : LinuxEnv) : Option String :=
  match env.blkssz with
  | none => some "BLKSSZGET failed"
  | some logical_sector =>
    if logical_sector < 0 then some "logical_sector < 0"
    else
      match env.blkpbsz with
      | none => some "BLKPBSZGET failed"
      | some _ =>
        match env.blkgetsize64 with
        | none => some "BLKGETSIZE64 failed"
        | some _ => none

/-- Modelled from the spec: the first failing step of the identity part of
the query, named after the failing call or check. -/
def serial_first_error (env : LinuxEnv) : Option String :=
  match env.sg_version with
  | none => some "SG_GET_VERSION_NUM failed"
  | some version =>
    if version < 30000 then some "SG_GET_VERSION_NUM < 30000"
    else
      match env.sg_io with
      | none => some "SG_IO failed"
      | some r =>
        if r.info &&& SG_INFO_OK_MASK ≠ SG_INFO_OK then
          some "SG_INFO_OK_MASK failed"
        else if r.masked_status ≠ 0 then
          some "io_hdr.masked_status was non-zero"
        else if r.host_status ≠ 0 then
          some "io_hdr.host_status was non-zero"
        else if r.driver_status ≠ 0 then
          some "io_hdr.driver_status was non_zero"
        else if r.dxferp.getD 1 0 ≠ 128 then
          some "dxferp[1] != 0x80"
        else none

/-- Modelled from the spec: the first failing step of the combined query
in the order the spec prescribes (validate, then geometry, then identity),
with each failure named after the failing call. -/
def linux_first_error (env : LinuxEnv) : Option String :=
  match env.fstat_mode with
  | none => some "fstat failed"
  | some mode =>
    if mode &&& S_IFMT ≠ S_IFBLK ∧ mode &&& S_IFMT ≠ S_IFCHR then
      some "fd is not a block or character device"
    else
      match size_first_error env with
      | some m => some m
      | none => serial_first_error env

/-- Modelled from the spec: the full device info object a successful query
must deliver, assembled directly from the kernel replies. -/
def linux_full_info (env : LinuxEnv) : DeviceInfo :=
  { logicalSectorSize := env.blkssz.getD 0,
    physicalSectorSize := ((env.blkpbsz.getD 0 : ℕ) : ℤ),
    size := toInt64 (env.blkgetsize64.getD 0),
    serialNumber := trim_serial (serial_copy (sg_dxferp env)) }

/-- Modelled from the spec: every step of the combined query succeeded. -/
def linux_all_ok (env : LinuxEnv) : Bool :=
  match env.fstat_mode, env.blkssz, env.blkpbsz, env.blkgetsize64,
      env.sg_version, env.sg_io with
  | some mode, some logical_sector, some _, some _, some version, some r =>
    (mode &&& S_IFMT == S_IFBLK || mode &&& S_IFMT == S_IFCHR) &&
    decide (0 ≤ logical_sector) &&
    decide (30000 ≤ version) &&
    (r.info &&& SG_INFO_OK_MASK == SG_INFO_OK) &&
    (r.masked_status == 0) &&
    (r.host_status == 0) &&
    (r.driver_status == 0) &&
    (r.dxferp.getD 1 0 == 128)
  | _, _, _, _, _, _ => false

/-! ## Helper lemmas -/

/-- arg_int accepts an exact non-negative integer within INT_MAX and
returns it unchanged. -/
theorem arg_int_natCast (n : ℕ) (h : n ≤ INT_MAX) :
    arg_int (JSNum.num n) = some n := by
  have harg : arg_int (JSNum.num n) =
      (if (n : ℚ) < 0 then none
       else if (INT_MAX : ℚ) < (n : ℚ) then none
       else if ((n : ℚ)).den ≠ 1 then none
       else some ((n : ℚ)).num.toNat) := rfl
  unfold INT_MAX at harg h
  rw [harg, if_neg (not_lt.mpr (Nat.cast_nonneg n)),
    if_neg (not_lt.mpr (by exact_mod_cast h)),
    if_neg (by simp), Rat.num_natCast, Int.toNat_natCast]

/-- Success path of get_aligned_buffer: with every precondition satisfied
and the platform allocator returning an aligned non-null pointer, the
entry point returns that pointer with a zero-filled buffer of the
requested size. -/
theorem get_aligned_buffer_ok (size alignment k : ℕ)
    (memalign : ℕ → ℕ → MemResult) (ptr : ℕ)
    (hs0 : size ≠ 0) (hsmax : size ≤ 2147483647)
    (hpow : alignment = 2 ^ k) (h8 : 8 ≤ alignment)
    (hmax : alignment ≤ 4194304)
    (hmem : memalign alignment size = MemResult.ok ptr)
    (hptr0 : ptr ≠ 0) (hdvd : alignment ∣ ptr) :
    get_aligned_buffer (JSNum.num size) (JSNum.num alignment) memalign
      = AllocResult.buffer ptr (List.replicate size 0) := by
  have hland : alignment &&& (alignment - 1) = 0 := by
    rw [hpow, land_two_pow_sub_one, Nat.mod_self]
  have hpland : ptr &&& (alignment - 1) = 0 := by
    rw [hpow, land_two_pow_sub_one]
    exact Nat.mod_eq_zero_of_dvd (hpow ▸ hdvd)
  unfold get_aligned_buffer
  rw [arg_int_natCast size (by unfold INT_MAX; omega),
    arg_int_natCast alignment (by unfold INT_MAX; omega)]
  simp only [if_neg hs0, if_neg (by omega : ¬ 2147483647 < size),
    if_neg (by omega : ¬ alignment = 0),
    if_neg (by simp [hland] : ¬ alignment &&& (alignment - 1) ≠ 0),
    if_neg (by omega : ¬ alignment < 8),
    if_neg (by omega : ¬ 4194304 < alignment),
    if_neg (by unfold POINTER_SIZE; omega : ¬ alignment < POINTER_SIZE),
    hmem, if_neg hptr0,
    if_neg (by simp [hpland] : ¬ ptr &&& (alignment - 1) ≠ 0)]

/-- The head of a list from which leading bytes equal to 32 were dropped
is never 32. -/
theorem dropWhile_32_head (l : List ℕ) :
    (l.dropWhile (fun b => b == 32)).head? ≠ some 32 := by
  induction l with
  | nil => simp
  | cons a t ih =>
    rw [List.dropWhile_cons]
    by_cases h : (a == 32) = true
    · rw [if_pos h]
      exact ih
    · rw [if_neg h]
      simp only [List.head?_cons, ne_eq, Option.some.injEq]
      intro hc
      exact h (by simp [hc])

/-- Dropping a leading segment either keeps the last element or leaves
nothing. -/
theorem dropWhile_32_getLast (l : List ℕ) :
    (l.dropWhile (fun b => b == 32)).getLast? = l.getLast?
      ∨ l.dropWhile (fun b => b == 32) = [] := by
  induction l with
  | nil => simp
  | cons a t ih =>
    rw [List.dropWhile_cons]
    by_cases h : (a == 32) = true
    · rw [if_pos h]
      rcases ih with h1 | h2
      · cases t with
        | nil => right; simp
        | cons b t2 =>
          left
          rw [h1, List.getLast?_cons_cons]
      · right; exact h2
    · rw [if_neg h]
      left; rfl

/-- The first byte of a trimmed serial number is never a space. -/
theorem trim_serial_head (l : List ℕ) : (trim_serial l).head? ≠ some 32 := by
  unfold trim_serial
  rw [List.head?_reverse]
  rcases dropWhile_32_getLast ((l.dropWhile (fun b => b == 32)).reverse) with
    h1 | h2
  · rw [h1, List.getLast?_reverse]
    exact dropWhile_32_head l
  · rw [h2]
    simp

/-- The last byte of a trimmed serial number is never a space. -/
theorem trim_serial_getLast (l : List ℕ) :
    (trim_serial l).getLast? ≠ some 32 := by
  unfold trim_serial
  rw [List.getLast?_reverse]
  exact dropWhile_32_head _

/-- int64_wrap is the identity on the signed non-negative range. -/
theorem int64_wrap_id (z : ℤ) (h0 : 0 ≤ z) (h : z < 2 ^ 63) :
    int64_wrap z = z := by
  unfold int64_wrap
  have hmod : z % 2 ^ 64 = z :=
    Int.emod_eq_of_lt h0 (h.trans (by norm_num))
  rw [hmod, if_pos h]

/-- The int64_t cast is exact below 2 ^ 63. -/
theorem toInt64_id (n : ℕ) (h : n < 2 ^ 63) : toInt64 n = n :=
  int64_wrap_id _ (Int.natCast_nonneg n) (by exact_mod_cast h)

/-! ## Claim theorems -/

set_option maxRecDepth 8000 in
/-- C1: the copy count of the SCSI serial extraction does equal
min(responseLength, declaredLength, bufferCapacity) for every possible
declared-length byte, but the copy does not stay inside the 255-byte
response buffer: at the concrete response whose page-code echo succeeds
and whose declared length byte is 255, the loop copies 255 bytes and reads
source index 258, which lies past the end of the response buffer. -/
theorem C1_serial_copy_out_of_bounds :
    (∀ d : Fin 256, serial_copy_length d.val
        = min RESPONSE_LENGTH (min d.val DEVICE_SERIAL_MAX))
  ∧ ([0, 128, 0, 255] ++ List.replicate 251 65 : List ℕ).length
      = RESPONSE_LENGTH
  ∧ ([0, 128, 0, 255] ++ List.replicate 251 65 : List ℕ).getD 1 0 = 128
  ∧ serial_copy_length
      (([0, 128, 0, 255] ++ List.replicate 251 65 : List ℕ).getD 3 0) = 255
  ∧ 258 ∈ serial_read_indices
      (([0, 128, 0, 255] ++ List.replicate 251 65 : List ℕ).getD 3 0)
  ∧ ¬ 258 < RESPONSE_LENGTH := by decide

/-- C2: under the section 4.1 preconditions, and with the platform
allocator honouring its contract of returning an aligned non-null block,
allocation succeeds with a start address divisible by the alignment and
contents that are all zero. -/
theorem C2_get_aligned_buffer_aligned_and_zeroed (size alignment k : ℕ)
    (memalign : ℕ → ℕ → MemResult) (ptr : ℕ)
    (hs0 : size ≠ 0) (hsmax : size ≤ 2147483647)
    (hpow : alignment = 2 ^ k) (h8 : 8 ≤ alignment)
    (hmax : alignment ≤ 4194304)
    (hmem : memalign alignment size = MemResult.ok ptr)
    (hptr0 : ptr ≠ 0) (hdvd : alignment ∣ ptr) :
    get_aligned_buffer (JSNum.num size) (JSNum.num alignment) memalign
      = AllocResult.buffer ptr (List.replicate size 0)
    ∧ ptr % alignment = 0
    ∧ ∀ b ∈ List.replicate size 0, b = 0 :=
  ⟨get_aligned_buffer_ok size alignment k memalign ptr hs0 hsmax hpow h8
      hmax hmem hptr0 hdvd,
    Nat.mod_eq_zero_of_dvd hdvd,
    fun _ hb => List.eq_of_mem_replicate hb⟩

/-- Witness for C2 at size 512, alignment 8, with an allocator returning
address 4096. -/
theorem C2_witness :
    get_aligned_buffer (JSNum.num 512) (JSNum.num 8)
        (fun _ _ => MemResult.ok 4096)
      = AllocResult.buffer 4096 (List.replicate 512 0)
    ∧ 4096 % 8 = 0
    ∧ ∀ b ∈ List.replicate 512 0, b = 0 := by
  have h := C2_get_aligned_buffer_aligned_and_zeroed 512 8 3
    (fun _ _ => MemResult.ok 4096) 4096
    (by norm_num) (by norm_num) (by norm_num) (by norm_num) (by norm_num)
    rfl (by norm_num) (by norm_num)
  exact_mod_cast h

/-- C3: allocation with size 0 always throws, allocation with size 2 ^ 31
always throws, and allocation with size 2 ^ 31 - 1 succeeds for a valid
alignment when the platform allocator honours its contract. -/
theorem C3_size_boundaries :
    (∀ (alignment_arg : JSNum) (memalign : ℕ → ℕ → MemResult),
      ∃ m, get_aligned_buffer (JSNum.num 0) alignment_arg memalign
        = AllocResult.thrown m)
  ∧ (∀ (alignment_arg : JSNum) (memalign : ℕ → ℕ → MemResult),
      ∃ m, get_aligned_buffer (JSNum.num (2 ^ 31)) alignment_arg memalign
        = AllocResult.thrown m)
  ∧ (∀ (alignment k : ℕ) (memalign : ℕ → ℕ → MemResult) (ptr : ℕ),
      alignment = 2 ^ k → 8 ≤ alignment → alignment ≤ 4194304 →
      memalign alignment 2147483647 = MemResult.ok ptr → ptr ≠ 0 →
      alignment ∣ ptr →
      get_aligned_buffer (JSNum.num (2 ^ 31 - 1)) (JSNum.num alignment)
          memalign
        = AllocResult.buffer ptr (List.replicate 2147483647 0)) := by
  refine ⟨?_, ?_, ?_⟩
  · intro aa mem
    unfold get_aligned_buffer
    rw [show arg_int (JSNum.num 0) = some 0 by decide]
    cases arg_int aa with
    | none => exact ⟨_, rfl⟩
    | some a => exact ⟨"size must not be 0", by simp⟩
  · intro aa mem
    unfold get_aligned_buffer
    rw [show arg_int (JSNum.num (2 ^ 31)) = none by decide]
    cases arg_int aa with
    | none => exact ⟨_, rfl⟩
    | some a => exact ⟨_, rfl⟩
  · intro alignment k mem ptr hpow h8 hmax hmem hptr0 hdvd
    have hq : (2 ^ 31 - 1 : ℚ) = ((2147483647 : ℕ) : ℚ) := by norm_num
    rw [hq]
    exact get_aligned_buffer_ok 2147483647 alignment k mem ptr
      (by norm_num) (by norm_num) hpow h8 hmax hmem hptr0 hdvd

/-- Witness for C3 at alignment 8 with an allocator returning 4096. -/
theorem C3_witness :
    (∃ m, get_aligned_buffer (JSNum.num 0) (JSNum.num 8)
        (fun _ _ => MemResult.enomem) = AllocResult.thrown m)
  ∧ (∃ m, get_aligned_buffer (JSNum.num (2 ^ 31)) (JSNum.num 8)
        (fun _ _ => MemResult.enomem) = AllocResult.thrown m)
  ∧ get_aligned_buffer (JSNum.num (2 ^ 31 - 1)) (JSNum.num 8)
        (fun _ _ => MemResult.ok 4096)
      = AllocResult.buffer 4096 (List.replicate 2147483647 0) :=
  ⟨C3_size_boundaries.1 (JSNum.num 8) (fun _ _ => MemResult.enomem),
    C3_size_boundaries.2.1 (JSNum.num 8) (fun _ _ => MemResult.enomem),
    C3_size_boundaries.2.2 8 3 (fun _ _ => MemResult.ok 4096) 4096
      (by norm_num) (by norm_num) (by norm_num) rfl (by norm_num)
      (by norm_num)⟩

/-- C4: every serial number the completion step exposes passes through the
trimming loops, the trimmed serial never starts or ends with an ASCII
space, and the raw payload consisting of ABC123 surrounded by two spaces
on each side trims to exactly ABC123. -/
theorem C4_serial_trimmed :
    (∀ l : List ℕ, (trim_serial l).head? ≠ some 32
        ∧ (trim_serial l).getLast? ≠ some 32)
  ∧ (∀ (fd : ℕ) (ls ps sz : ℤ) (l : List ℕ),
      task_complete NapiStatus.ok
        { fd := fd, value := 0, device := 1,
          device_sector_logical := ls, device_sector_physical := ps,
          device_size := sz, device_serial := l, error := none }
        = Completion.success_device
            { logicalSectorSize := ls, physicalSectorSize := ps,
              size := sz, serialNumber := trim_serial l })
  ∧ trim_serial [32, 32, 65, 66, 67, 49, 50, 51, 32, 32]
      = [65, 66, 67, 49, 50, 51] := by
  refine ⟨fun l => ⟨trim_serial_head l, trim_serial_getLast l⟩, ?_, by decide⟩
  intro fd ls ps sz l
  rfl

/-- C5 counterexample: at size 1 and alignment 2 ^ 31 the first failing
check of the ordered precondition list of section 4.1 is the 4 MiB
alignment ceiling, but the code reports the integer-marshaling
bad-arguments error instead, because arg_int rejects any value above
INT_MAX before the precondition chain runs. -/
theorem C5_counterexample :
    spec_first_failure 1 2147483648
        = some "alignment must be at most 4194304 bytes"
  ∧ get_aligned_buffer (JSNum.num 1) (JSNum.num 2147483648)
        (fun _ _ => MemResult.enomem)
      = AllocResult.thrown "bad arguments, expected: (size, alignment)"
  ∧ ("bad arguments, expected: (size, alignment)" : String)
      ≠ "alignment must be at most 4194304 bytes" := by
  refine ⟨by decide, ?_, by decide⟩
  unfold get_aligned_buffer
  rw [show arg_int (JSNum.num 2147483648) = none by decide]
  rw [show arg_int (JSNum.num 1) = some 1 by decide]

/-- C5 amended: for arguments that pass integer marshaling, that is exact
integers between 0 and INT_MAX, the precondition chain runs in exactly
the order the claim lists and the first failing check determines the
thrown error, with no allocator call on any failing path. -/
theorem C5_precondition_order (size alignment : ℕ)
    (hs : size ≤ 2147483647) (ha : alignment ≤ 2147483647)
    (e : String) (he : spec_first_failure size alignment = some e)
    (memalign : ℕ → ℕ → MemResult) :
    get_aligned_buffer (JSNum.num size) (JSNum.num alignment) memalign
      = AllocResult.thrown e := by
  have hred : get_aligned_buffer (JSNum.num size) (JSNum.num alignment)
      memalign =
      (if size = 0 then AllocResult.thrown "size must not be 0"
       else if 2147483647 < size then
         AllocResult.thrown "size must be at most 2147483647 bytes"
       else if alignment = 0 then AllocResult.thrown "alignment must not be 0"
       else if alignment &&& (alignment - 1) ≠ 0 then
         AllocResult.thrown "alignment must be a power of 2"
       else if alignment < 8 then
         AllocResult.thrown "alignment must be at least 8 bytes"
       else if 4194304 < alignment then
         AllocResult.thrown "alignment must be at most 4194304 bytes"
       else if alignment < POINTER_SIZE then
         AllocResult.thrown "alignment must be at least as large as a pointer"
       else
         match memalign alignment size with
         | MemResult.einval => AllocResult.thrown "bad alignment argument"
         | MemResult.enomem => AllocResult.thrown "insufficient memory"
         | MemResult.fail =>
           AllocResult.thrown "unexpected error, posix_memalign"
         | MemResult.ok ptr =>
           if ptr = 0 then AllocResult.aborted "assert failed: ptr != NULL"
           else if ptr &&& (alignment - 1) ≠ 0 then
             AllocResult.aborted "assert failed: pointer is aligned"
           else AllocResult.buffer ptr (List.replicate size 0)) := by
    unfold get_aligned_buffer
    rw [arg_int_natCast size (by unfold INT_MAX; omega),
      arg_int_natCast alignment (by unfold INT_MAX; omega)]
  rw [hred]
  unfold spec_first_failure at he
  by_cases h1 : size = 0
  · rw [if_pos h1] at he ⊢
    injection he with he
    rw [he]
  rw [if_neg h1] at he ⊢
  have h2 : ¬ 2147483647 < size := by omega
  rw [if_neg h2] at he ⊢
  by_cases h3 : alignment = 0
  · rw [if_pos h3] at he ⊢
    injection he with he
    rw [he]
  rw [if_neg h3] at he ⊢
  by_cases h4 : specPow2 alignment
  · rw [if_neg (not_not_intro h4)] at he
    have hl : alignment &&& (alignment - 1) = 0 :=
      ((pow2_iff_land alignment).mp h4).2
    rw [if_neg (by simp [hl])]
    by_cases h5 : alignment < 8
    · rw [if_pos h5] at he ⊢
      injection he with he
      rw [he]
    rw [if_neg h5] at he ⊢
    by_cases h6 : 4194304 < alignment
    · rw [if_pos h6] at he ⊢
      injection he with he
      rw [he]
    rw [if_neg h6] at he ⊢
    by_cases h7 : alignment < POINTER_SIZE
    · rw [if_pos h7] at he ⊢
      injection he with he
      rw [he]
    rw [if_neg h7] at he
    exact absurd he (by simp)
  · rw [if_pos h4] at he
    injection he with he
    have hl : alignment &&& (alignment - 1) ≠ 0 := by
      intro h0
      exact h4 ((pow2_iff_land alignment).mpr ⟨h3, h0⟩)
    rw [if_pos hl, he]

/-- Witness for the amended C5 at size 5, alignment 12: the first failing
check is the power-of-two test and the code throws exactly its error. -/
theorem C5_witness :
    spec_first_failure 5 12 = some "alignment must be a power of 2"
  ∧ get_aligned_buffer (JSNum.num 5) (JSNum.num 12)
        (fun _ _ => MemResult.enomem)
      = AllocResult.thrown "alignment must be a power of 2" :=
  ⟨by decide,
    C5_precondition_order 5 12 (by norm_num) (by norm_num) _ (by decide) _⟩

/-- The geometry step either records the spec-side first error of the
geometry calls or fills in exactly the three sector and size fields. -/
theorem size_step (env : LinuxEnv) (t : TaskData) :
    task_execute_get_block_device_size env t =
      match size_first_error env with
      | some m => { t with error := some m }
      | none =>
        { t with
          device_sector_logical := env.blkssz.getD 0,
          device_sector_physical := ((env.blkpbsz.getD 0 : ℕ) : ℤ),
          device_size := toInt64 (env.blkgetsize64.getD 0) } := by
  obtain ⟨fm, ssz, pbsz, gsz, sgv, sgio⟩ := env
  cases ssz <;> cases pbsz <;> cases gsz <;>
    simp [task_execute_get_block_device_size, size_first_error] <;>
    split_ifs <;> rfl

/-- The identity step either records the spec-side first error of the
identity calls or fills in exactly the serial bytes. -/
theorem serial_step (env : LinuxEnv) (t : TaskData) :
    task_execute_get_block_device_serial env t =
      match serial_first_error env with
      | some m => { t with error := some m }
      | none => { t with device_serial := serial_copy (sg_dxferp env) } := by
  obtain ⟨fm, ssz, pbsz, gsz, sgv, sgio⟩ := env
  cases sgv <;> cases sgio <;>
    simp [task_execute_get_block_device_serial, serial_first_error,
      sg_dxferp] <;>
    split_ifs <;> rfl

set_option linter.unnecessarySeqFocus false in
/-- C6: the combined query is all-or-nothing. The single completion is the
failure named by the first failing call when one exists, and otherwise the
full device info object; and no first error exists exactly when every call
of the query succeeded. A partial info object is never delivered. -/
theorem C6_all_or_nothing (env : LinuxEnv) (fd : ℕ) :
    get_block_device_outcome env fd =
      (match linux_first_error env with
       | some m => Completion.failure m
       | none => Completion.success_device (linux_full_info env))
  ∧ (linux_first_error env = none ↔ linux_all_ok env = true) := by
  constructor
  · unfold get_block_device_outcome task_execute_get_block_device
      linux_first_error
    cases hfm : env.fstat_mode with
    | none => rfl
    | some mode =>
      dsimp only
      by_cases hmode : mode &&& S_IFMT ≠ S_IFBLK ∧ mode &&& S_IFMT ≠ S_IFCHR
      · rw [if_pos hmode, if_pos hmode]
        rfl
      · rw [if_neg hmode, if_neg hmode]
        show task_complete NapiStatus.ok
            (match (task_execute_get_block_device_size env
                (task_queue_init fd 0 1)).error with
             | some _ => task_execute_get_block_device_size env
                 (task_queue_init fd 0 1)
             | none => task_execute_get_block_device_serial env
                 (task_execute_get_block_device_size env
                   (task_queue_init fd 0 1))) = _
        rw [size_step]
        cases hsz : size_first_error env with
        | some m => rfl
        | none =>
          rw [serial_step]
          cases hse : serial_first_error env with
          | some m => rfl
          | none =>
            simp [task_complete, task_queue_init, linux_full_info]
  · obtain ⟨fm, ssz, pbsz, gsz, sgv, sgio⟩ := env
    cases fm <;> cases ssz <;> cases pbsz <;> cases gsz <;> cases sgv <;>
      cases sgio <;>
      simp [linux_first_error, size_first_error, serial_first_error,
        linux_all_ok] <;>
      split_ifs <;>
      simp_all <;> omega

/-- C7 counterexample: the widened multiplication is performed in int64_t,
so at a logical sector size of 2 and a sector count of 2 ^ 62 the stored
size wraps to the negative value -(2 ^ 63) instead of the exact
mathematical product 2 ^ 63. -/
theorem C7_counterexample :
    device_size_macos 2 (2 ^ 62) ≠ ((2 : ℤ) * 2 ^ 62)
  ∧ device_size_macos 2 (2 ^ 62) = -(2 ^ 63) := by
  constructor <;> decide

/-- C7 amended: whenever the exact product of the 32-bit sector size and
the 64-bit sector count fits in a signed 64-bit integer, the stored device
size equals the exact mathematical product; in particular no 32-bit
truncation ever occurs. -/
theorem C7_wide_multiplication (logical_sector logical_sectors : ℕ)
    (h32 : logical_sector < 2 ^ 32)
    (hprod : logical_sector * logical_sectors < 2 ^ 63) :
    device_size_macos logical_sector logical_sectors
      = ((logical_sector * logical_sectors : ℕ) : ℤ) := by
  rcases Nat.eq_zero_or_pos logical_sector with rfl | hpos
  · simp [device_size_macos, toInt64, int64_wrap]
  · have hlss : logical_sectors < 2 ^ 63 := by
      have hle : logical_sectors ≤ logical_sector * logical_sectors :=
        Nat.le_mul_of_pos_left logical_sectors hpos
      omega
    have hls : logical_sector < 2 ^ 63 := by
      calc logical_sector < 2 ^ 32 := h32
      _ ≤ 2 ^ 63 := by norm_num
    rw [device_size_macos, toInt64_id logical_sector hls,
      toInt64_id logical_sectors hlss, ← Nat.cast_mul]
    exact int64_wrap_id _ (Int.natCast_nonneg _) (by exact_mod_cast hprod)

/-- Witness for the amended C7 at sector size 512 and count 1000. -/
theorem C7_witness :
    device_size_macos 512 1000 = ((512 * 1000 : ℕ) : ℤ) :=
  C7_wide_multiplication 512 1000 (by norm_num) (by norm_num)

/-- C8: for a task whose runtime status reports cancellation before
execution, the completion handler performs exactly one callback
invocation, and that single completion carries exactly the cancellation
error, whatever state the task record is in. -/
theorem C8_cancelled_single_completion (t : TaskData) :
    task_complete_calls NapiStatus.cancelled t
      = [Completion.failure "async work was cancelled"]
  ∧ (task_complete_calls NapiStatus.cancelled t).length = 1 := by
  constructor
  · unfold task_complete_calls task_complete
    rfl
  · rfl

/-- C9: each platform-gated toggle invoked outside its designated platform
throws its platform-unsupported error for every possible argument list,
and a task is queued for native execution only on the designated
platform. -/
theorem C9_platform_gating (p : Platform) (c : ToggleCall) :
    (p ≠ Platform.macos →
      set_f_nocache p c = EntryResult.thrown "only supported on mac os")
  ∧ (p = Platform.windows →
      set_flock p c = EntryResult.thrown "not supported on windows")
  ∧ (p ≠ Platform.windows →
      set_fsctl_lock_volume p c
        = EntryResult.thrown "only supported on windows")
  ∧ (∀ t, set_f_nocache p c = EntryResult.queued t → p = Platform.macos)
  ∧ (∀ t, set_flock p c = EntryResult.queued t → p ≠ Platform.windows)
  ∧ (∀ t, set_fsctl_lock_volume p c = EntryResult.queued t →
      p = Platform.windows) := by
  cases p <;>
    simp [set_f_nocache, set_flock, set_fsctl_lock_volume]

/-- Witness for C9 on Linux: all three gates behave as the theorem
states. -/
theorem C9_witness :
    set_f_nocache Platform.linux
        { argc := 3, fd_arg := JSNum.num 3, value_arg := JSNum.num 1,
          callback_is_function := true }
      = EntryResult.thrown "only supported on mac os"
  ∧ set_fsctl_lock_volume Platform.linux
        { argc := 3, fd_arg := JSNum.num 3, value_arg := JSNum.num 1,
          callback_is_function := true }
      = EntryResult.thrown "only supported on windows" :=
  ⟨(C9_platform_gating Platform.linux
      { argc := 3, fd_arg := JSNum.num 3, value_arg := JSNum.num 1,
        callback_is_function := true }).1 (by decide),
    (C9_platform_gating Platform.linux
      { argc := 3, fd_arg := JSNum.num 3, value_arg := JSNum.num 1,
        callback_is_function := true }).2.2.1 (by decide)⟩

/-- C10: arg_int rejects every negative, fractional, NaN, infinite or
above-INT_MAX numeric argument and accepts exactly the exact non-negative
integers up to INT_MAX; a rejected argument makes task_args and
getAlignedBuffer throw the bad-arguments error for every allocator and
with no task queued. -/
theorem C10_argument_validation :
    (∀ q : ℚ, q < 0 ∨ (INT_MAX : ℚ) < q ∨ q.den ≠ 1 →
      arg_int (JSNum.num q) = none)
  ∧ arg_int JSNum.nan = none
  ∧ arg_int JSNum.posinf = none
  ∧ arg_int JSNum.neginf = none
  ∧ (∀ (v : JSNum) (n : ℕ), arg_int v = some n →
      n ≤ INT_MAX ∧ v = JSNum.num (n : ℚ))
  ∧ (∀ c : ToggleCall, arg_int c.fd_arg = none ∨ arg_int c.value_arg = none →
      task_args c
        = EntryResult.thrown "bad arguments, expected: (fd, value=0/1, callback)")
  ∧ (∀ (s a : JSNum) (memalign : ℕ → ℕ → MemResult),
      arg_int s = none ∨ arg_int a = none →
      get_aligned_buffer s a memalign
        = AllocResult.thrown "bad arguments, expected: (size, alignment)") := by
  refine ⟨?_, rfl, rfl, rfl, ?_, ?_, ?_⟩
  · intro q hq
    have harg : arg_int (JSNum.num q) =
        (if q < 0 then none
         else if (INT_MAX : ℚ) < q then none
         else if q.den ≠ 1 then none
         else some q.num.toNat) := rfl
    rw [harg]
    split_ifs with h1 h2 h3
    · rfl
    · rfl
    · rfl
    · rcases hq with h | h | h
      · exact absurd h h1
      · exact absurd h h2
      · exact absurd h h3
  · intro v n h
    cases v with
    | num q =>
      have harg : arg_int (JSNum.num q) =
          (if q < 0 then none
           else if (INT_MAX : ℚ) < q then none
           else if q.den ≠ 1 then none
           else some q.num.toNat) := rfl
      rw [harg] at h
      split_ifs at h with h1 h2 h3
      injection h with h
      subst h
      have hden : (q.num : ℚ) = q := (Rat.den_eq_one_iff q).mp (not_not.mp h3)
      have hnum0 : 0 ≤ q.num := Rat.num_nonneg.mpr (not_lt.mp h1)
      have hint : q.num ≤ (INT_MAX : ℤ) := by
        have hq1 : (q.num : ℚ) ≤ (INT_MAX : ℚ) := by
          rw [hden]
          exact not_lt.mp h2
        exact_mod_cast hq1
      constructor
      · unfold INT_MAX at hint ⊢
        omega
      · have h5 : ((q.num.toNat : ℕ) : ℤ) = q.num := Int.toNat_of_nonneg hnum0
        have h4 : ((q.num.toNat : ℕ) : ℚ) = q := by
          rw [← hden]
          exact_mod_cast h5
        rw [h4]
    | nan => exact absurd h (by simp [arg_int])
    | posinf => exact absurd h (by simp [arg_int])
    | neginf => exact absurd h (by simp [arg_int])
    | notNumber => exact absurd h (by simp [arg_int])
  · intro c hc
    unfold task_args
    rcases hc with h | h
    · rw [h]
    · rw [h]
      cases arg_int c.fd_arg <;> rfl
  · intro s a memalign hc
    unfold get_aligned_buffer
    rcases hc with h | h
    · rw [h]
    · rw [h]
      cases arg_int s <;> rfl

end DirectIO
